import Mathlib

/-!
Verification of the relay-client panel application, a shallow embedding of
src/src/web/scripts/index.js (the Vue application object `PanelApp`).

The transport (`relay`), the panel builder (`panel`) and the browser are
external collaborators: their outcomes enter the model as explicit oracle
arguments (fetch result, build result, per-device acquisition outcome,
connection state reported by the transport).  `localStorage` is modelled as a
string-keyed partial map; its values are strings because `setItem`
stringifies.  Two ghost fields (`shown`, `acquireBatches`) record the
observable calls to `showAlertDialog` and to the acquisition batch, without
altering any source behaviour.
-/

namespace RelayClient

/-- Connection states of the external transport (`Relay.ConnectionState`). -/
inductive ConnectionState where
  | Disconnected
  | Connecting
  | Connected
  | Reconnecting
deriving DecidableEq, Repr

/-- The persisted key-value store (`localStorage`): string keys to string
values; absent keys read back as `none` (JS `null`). -/
def Store : Type := String → Option String

/-- `localStorage.setItem`: overwrite one key. -/
def setItem (st : Store) (key value : String) : Store :=
  fun k => if k = key then some value else st k

/-- `localStorage.getItem`. -/
def getItem (st : Store) (key : String) : Option String :=
  st key

/-- `localStorage.removeItem`. -/
def removeItem (st : Store) (key : String) : Store :=
  fun k => if k = key then none else st k

/-- A store with no keys set. -/
def emptyStore : Store := fun _ => none

/-- One entry of `panel.usedDeviceResources` (read at index.js lines 123-133):
the requested button count and, optionally, the list of requested axes (the
source guards the axis loop with `if (requestedDevice.axes)`). -/
structure DeviceRequest where
  buttons : Nat
  axes : Option (List String)
deriving DecidableEq, Repr

/-- A device record as resolved by `relay.acquireDevice`; exactly the fields
read at index.js lines 120-130.  The device's axis object is modelled by the
list of axis names that are present (with truthy values). -/
structure Device where
  id : Nat
  isAcquired : Bool
  numButtons : Nat
  axes : List String
deriving DecidableEq, Repr

/-- Outcome of one `relay.acquireDevice` promise: fulfilled with a device
record, or rejected. -/
inductive AcquireOutcome where
  | fulfilled (device : Device)
  | rejected
deriving DecidableEq, Repr

/-- A `Promise.allSettled` result object.  Only its `value` field is read by
the loop at index.js line 119; a rejected promise's result object carries no
`value` (it is `undefined`), modelled as `none`. -/
structure SettledResult where
  value : Option Device
deriving DecidableEq, Repr

/-- How `Promise.allSettled` records one outcome. -/
def settle : AcquireOutcome → SettledResult
  | .fulfilled d => ⟨some d⟩
  | .rejected => ⟨none⟩

/-- `Promise.allSettled` over the batch of acquisitions (index.js line 142):
it is total in every outcome — one settled entry per request, no
short-circuit on an individual rejection. -/
def allSettled (outcomes : List AcquireOutcome) : List SettledResult :=
  outcomes.map settle

/-- `panel.usedDeviceResources[id]`: association-list lookup by device id. -/
def lookupRequest (used : List (Nat × DeviceRequest)) (id : Nat) :
    Option DeviceRequest :=
  (used.find? (fun p => p.1 == id)).map Prod.snd

/-- The warning lines produced for one settled acquisition result (loop body,
index.js lines 120-134).  `Except.error` models an uncaught TypeError:
dereferencing `device.isAcquired` when the settled value is `undefined`
(rejected promise), or `requestedDevice.buttons` when the returned id is not
a key of `usedDeviceResources`. -/
def deviceWarningsOne (used : List (Nat × DeviceRequest)) (value : Option Device) :
    Except Unit (List String) :=
  match value with
  | none => .error ()
  | some device =>
    if !device.isAcquired then
      .ok ["Unable to acquire device " ++ toString device.id]
    else
      match lookupRequest used device.id with
      | none => .error ()
      | some requestedDevice =>
        let buttonWarnings :=
          if requestedDevice.buttons > device.numButtons then
            ["Device " ++ toString device.id ++ " has " ++
              toString device.numButtons ++
              " buttons but this panel uses " ++ toString requestedDevice.buttons]
          else []
        let axisWarnings :=
          match requestedDevice.axes with
          | none => []
          | some axes =>
            (axes.filter (fun axis => !(device.axes.contains axis))).map
              (fun axis =>
                "Requested axis " ++ axis ++ " not enabled on device " ++
                  toString device.id)
        .ok (buttonWarnings ++ axisWarnings)

/-- The full warning loop (index.js lines 118-135), accumulating warnings in
order and faulting at the first problematic entry. -/
def deviceWarnings (used : List (Nat × DeviceRequest)) :
    List SettledResult → Except Unit (List String)
  | [] => .ok []
  | r :: rest =>
    match deviceWarningsOne used r.value with
    | .error e => .error e
    | .ok w =>
      match deviceWarnings used rest with
      | .error e => .error e
      | .ok ws => .ok (w ++ ws)

/-- `dialogs.connect` (only its `show` flag is used by the modelled code). -/
structure ConnectDialog where
  visible : Bool
deriving DecidableEq, Repr

/-- `dialogs.alert`.  `title`, `message` and `connectAfterClose` are absent
(undefined, hence falsy) in the initial data; modelled as `""`, `[]`,
`false`. -/
structure AlertDialog where
  visible : Bool
  title : String
  message : List String
  connectAfterClose : Bool
deriving DecidableEq, Repr

/-- `dialogs.reconnecting`.  `cancelled` is absent (falsy) initially. -/
structure ReconnectingDialog where
  visible : Bool
  cancelled : Bool
deriving DecidableEq, Repr

/-- The `dialogs` record of the Vue data. -/
structure Dialogs where
  connect : ConnectDialog
  alert : AlertDialog
  reconnecting : ReconnectingDialog
deriving DecidableEq, Repr

/-- The mutable state of the application: the Vue data of `PanelApp`, the
persisted store, the builder-owned `panel.usedDeviceResources` map and the
panel surface visibility (`panel.style.display`), plus two ghost logs:
`shown` records every `showAlertDialog` call (title, message lines) and
`acquireBatches` records the device-id batch of every `acquireDevices`
call. -/
structure AppState where
  dialogs : Dialogs
  address : String
  port : String
  currentServer : String
  panels : List String
  currentPanel : Option String
  connectionState : ConnectionState
  store : Store
  usedDeviceResources : List (Nat × DeviceRequest)
  panelHidden : Bool
  shown : List (String × List String)
  acquireBatches : List (List Nat)

/-- The initial Vue data (index.js lines 23-35), over a given persisted
store.  The numeric default `port: 32155` is modelled by its string
rendering, since the connect-form fields and `localStorage` are
string-valued. -/
def initState (store : Store) : AppState :=
  { dialogs :=
      { connect := ⟨false⟩,
        alert := { visible := false, title := "", message := [], connectAfterClose := false },
        reconnecting := { visible := false, cancelled := false } },
    address := "",
    port := "32155",
    currentServer := "",
    panels := [],
    currentPanel := none,
    connectionState := .Disconnected,
    store := store,
    usedDeviceResources := [],
    panelHidden := false,
    shown := [],
    acquireBatches := [] }

/-- `showAlertDialog` (index.js lines 157-161): set title, message, show.
Also appends to the ghost log `shown`. -/
def showAlertDialog (s : AppState) (title : String) (message : List String) :
    AppState :=
  { s with
    dialogs.alert.title := title,
    dialogs.alert.message := message,
    dialogs.alert.visible := true,
    shown := s.shown ++ [(title, message)] }

/-- `closePanel` (index.js lines 145-149): clear `currentPanel`, remove the
persisted last panel, hide the panel surface. -/
def closePanel (s : AppState) : AppState :=
  { s with
    currentPanel := none,
    store := removeItem s.store "lastPanel",
    panelHidden := true }

/-- `alertDialogClose` (index.js lines 163-167): hide the alert; if it was
flagged `connectAfterClose`, show the connect dialog; clear the flag. -/
def alertDialogClose (s : AppState) : AppState :=
  let s1 := { s with dialogs.alert.visible := false }
  let s2 :=
    if s1.dialogs.alert.connectAfterClose then
      { s1 with dialogs.connect.visible := true }
    else s1
  { s2 with dialogs.alert.connectAfterClose := false }

/-- Outcome of `relay.getPanel(panelName)` (index.js lines 87-98): success
(the descriptor is handed to the external builder, whose outcome is the
separate `BuildResult` oracle), a SyntaxError carrying `lineNumber` and
`columnNumber`, or any other error. -/
inductive FetchResult where
  | ok
  | parseError (lineNumber columnNumber : Nat) (message : String)
  | fetchError (message : String)
deriving Repr

/-- Outcome of `panel.build(panelData)` (index.js lines 103-114): success
(after which `panel.usedDeviceResources` is readable), a plain error, or an
`AssetError` carrying a list of sub-error lines. -/
inductive BuildResult where
  | ok (usedDeviceResources : List (Nat × DeviceRequest))
  | plainError (message : String)
  | assetError (message : String) (errors : List String)
deriving Repr

/-- Result of a `loadPanel` run: the final state, and whether the run ended
in an uncaught exception in the device-warning loop (`faulted`). -/
structure LoadResult where
  state : AppState
  faulted : Bool

/-- The two writes after a successful fetch (index.js lines 100-101): set
`currentPanel` and persist it as the last panel. -/
def persistPanel (s : AppState) (panelName : String) : AppState :=
  { s with
    currentPanel := some panelName,
    store := setItem s.store "lastPanel" panelName }

/-- `acquireDevices` (index.js lines 141-143): one `relay.acquireDevice`
request per key of `panel.usedDeviceResources`, joined with
`Promise.allSettled`.  The state is unchanged by the source; the model only
appends the issued batch to the ghost log. -/
def acquireDevices (s : AppState) (acquire : Nat → AcquireOutcome) :
    AppState × List SettledResult :=
  let ids := s.usedDeviceResources.map Prod.fst
  ({ s with acquireBatches := s.acquireBatches ++ [ids] },
    allSettled (ids.map acquire))

/-- The device-reconciliation tail of `loadPanel` (index.js lines 116-138):
acquire all devices, run the warning loop, and show a "Device info"
notification when any warning was produced. -/
def reconcileStage (s : AppState) (acquire : Nat → AcquireOutcome) : LoadResult :=
  let step := acquireDevices s acquire
  match deviceWarnings step.1.usedDeviceResources step.2 with
  | .error _ => { state := step.1, faulted := true }
  | .ok warnings =>
    if warnings.length > 0 then
      { state := showAlertDialog step.1 "Device info" warnings, faulted := false }
    else
      { state := step.1, faulted := false }

/-- The build step of `loadPanel` (index.js lines 103-114) and what follows
it.  On failure: collect the message plus, for an AssetError, its sub-error
lines; show the notification; close the panel.  On success: record the new
`usedDeviceResources` and reconcile devices. -/
def buildStage (s : AppState) (build : BuildResult)
    (acquire : Nat → AcquireOutcome) : LoadResult :=
  match build with
  | .ok used => reconcileStage { s with usedDeviceResources := used } acquire
  | .plainError msg =>
    { state := closePanel (showAlertDialog s "Failed to load panel" [msg]),
      faulted := false }
  | .assetError msg errs =>
    { state := closePanel (showAlertDialog s "Failed to load panel" ([msg] ++ errs)),
      faulted := false }

/-- `loadPanel` (index.js lines 82-139).  `panel.removeViews()` at entry is
an external builder call with no modelled state.  On fetch failure the
message is prefixed with the line/column location when the error is a
SyntaxError; the load aborts with no state change besides the
notification. -/
def loadPanel (s : AppState) (panelName : String) (fetch : FetchResult)
    (build : BuildResult) (acquire : Nat → AcquireOutcome) : LoadResult :=
  match fetch with
  | .parseError line col msg =>
    { state := showAlertDialog s "Failed to load panel"
        ["Error on line " ++ toString line ++ " at column " ++ toString col ++ ":",
          msg],
      faulted := false }
  | .fetchError msg =>
    { state := showAlertDialog s "Failed to load panel" [msg],
      faulted := false }
  | .ok => buildStage (persistPanel s panelName) build acquire

/-- The `reconnecting` event listener (index.js lines 210-214).  `cs` is the
connection state the transport reports. -/
def onReconnecting (s : AppState) (cs : ConnectionState) : AppState :=
  { s with
    connectionState := cs,
    dialogs.reconnecting.visible := true,
    dialogs.reconnecting.cancelled := false }

/-- `reconnectingDialogClose` (index.js lines 151-155): the user cancels the
reconnect attempt.  `relay.disconnect()` is an external transport call. -/
def reconnectingDialogClose (s : AppState) : AppState :=
  { s with
    dialogs.reconnecting.visible := false,
    dialogs.reconnecting.cancelled := true }

/-- The `reconnected` event listener (index.js lines 216-220): resync the
connection state, hide the reconnecting prompt, and re-issue the device
acquisitions — the returned promise is dropped, so no warning loop and no
notification follow. -/
def onReconnected (s : AppState) (cs : ConnectionState)
    (acquire : Nat → AcquireOutcome) : AppState :=
  let s1 := { s with connectionState := cs, dialogs.reconnecting.visible := false }
  (acquireDevices s1 acquire).1

/-- The `close` event listener (index.js lines 222-231).  `detailMsg` models
the string rendering of `e.detail?.message`.  Note the source resets
`cancelled` to false only inside the branch taken when it is already
false. -/
def onClose (s : AppState) (cs : ConnectionState) (detailMsg : String) : AppState :=
  let s1 := { s with connectionState := cs }
  let s2 := closePanel s1
  let s3 := { s2 with dialogs.reconnecting.visible := false }
  if !s3.dialogs.reconnecting.cancelled then
    let s4 := { s3 with dialogs.reconnecting.cancelled := false }
    let s5 := showAlertDialog s4 "Connection error"
      ["Server connection lost.", detailMsg]
    { s5 with dialogs.alert.connectAfterClose := true }
  else s3

/-- The persistence half of `submit` (index.js lines 48-50): store the
submitted address and port before connecting. -/
def submitPersist (st : Store) (address port : String) : Store :=
  setItem (setItem st "address" address) "port" port

/-- The startup read-back in `created` (index.js lines 197-205): when the
stored address is truthy (present and non-empty), read address and port back
and auto-connect with them; the returned pair is the `connect` argument
(port is `none` when the key is absent, i.e. JS `null`). -/
def createdStartup (st : Store) : Option (String × Option String) :=
  match getItem st "address" with
  | none => none
  | some a => if a = "" then none else some (a, getItem st "port")

/-- The button types of `Relay.InputType` as used at index.js lines 179-185.
The source name of the first constructor is `macro`; it is renamed here
because `macro` is a Lean keyword. -/
inductive InputType where
  | macroInput
  | command
  | view
deriving DecidableEq, Repr

/-- A button-change event detail: `{type, isPressed, view?}`. -/
structure ButtonAction where
  type : InputType
  isPressed : Bool
  view : String
deriving DecidableEq, Repr

/-- The effect `onButtonChange` has: forward the action to `sendInput` (the
transport), switch the view locally, or do nothing. -/
inductive ButtonEffect where
  | send (action : ButtonAction)
  | setView (view : String)
  | ignore
deriving DecidableEq, Repr

/-- `onButtonChange` (index.js lines 176-190): macro and command actions are
forwarded on release and dropped on press; view actions never reach
`sendInput` — on release they switch the view locally, on press they do
nothing. -/
def onButtonChange (action : ButtonAction) : ButtonEffect :=
  match action.type with
  | .macroInput => if action.isPressed then .ignore else .send action
  | .command => if action.isPressed then .ignore else .send action
  | .view => if !action.isPressed then .setView action.view else .ignore

/-! ### Store lemmas -/

theorem getItem_setItem_self (st : Store) (k v : String) :
    getItem (setItem st k v) k = some v := by
  simp [getItem, setItem]

theorem getItem_setItem_of_ne (st : Store) (k v k' : String) (h : k' ≠ k) :
    getItem (setItem st k v) k' = getItem st k' := by
  simp [getItem, setItem, h]

theorem getItem_removeItem_self (st : Store) (k : String) :
    getItem (removeItem st k) k = none := by
  simp [getItem, removeItem]

/-! ### Shared concrete scenario: device 3 requested with 4 buttons and axis
"x", acquired with 2 buttons and no axes. -/

/-- A one-device resource request: device 3 with 4 buttons and axis "x". -/
def mismatchRequests : List (Nat × DeviceRequest) := [(3, ⟨4, some ["x"]⟩)]

/-- Acquisition resolves device 3 acquired, 2 buttons, no axes enabled. -/
def mismatchAcquire : Nat → AcquireOutcome :=
  fun _ => .fulfilled ⟨3, true, 2, []⟩

/-- The two warnings the reconciler produces for the mismatch scenario. -/
def mismatchWarnings : List String :=
  ["Device 3 has 2 buttons but this panel uses 4",
   "Requested axis x not enabled on device 3"]

/-- A state with an active panel whose resource request is `mismatchRequests`. -/
def panelActiveState : AppState :=
  { initState emptyStore with
      currentPanel := some "deck1",
      usedDeviceResources := mismatchRequests }

/-! ### Claims -/

/-- Claim C1: on the event sequence `reconnecting`, user cancel, `close`, the
"connection lost" notification is indeed suppressed, but the `cancelled` flag
is NOT reset to false afterward (the reset in the source sits inside the
branch taken only when the flag is already false), so a subsequent `close`
with no intervening cancel is also suppressed, contradicting the claim. -/
theorem C1_cancel_suppresses_but_flag_not_reset :
    (onClose (reconnectingDialogClose
        (onReconnecting (initState emptyStore) ConnectionState.Reconnecting))
        ConnectionState.Disconnected "gone").shown = [] ∧
    (onClose (reconnectingDialogClose
        (onReconnecting (initState emptyStore) ConnectionState.Reconnecting))
        ConnectionState.Disconnected "gone").dialogs.reconnecting.cancelled = true ∧
    (onClose (onClose (reconnectingDialogClose
        (onReconnecting (initState emptyStore) ConnectionState.Reconnecting))
        ConnectionState.Disconnected "gone")
        ConnectionState.Disconnected "gone again").shown = [] :=
  ⟨rfl, rfl, rfl⟩

/-- Claim C2 fails as stated: a concrete panel-load fetch failure shows the
notification, but it is not flagged `connectAfterClose`, so dismissing it
does not reopen the connect prompt. -/
theorem C2_counterexample :
    (loadPanel (initState emptyStore) "deck1" (.fetchError "network down")
        (.ok []) (fun _ => .rejected)).state.dialogs.alert.visible = true ∧
    (loadPanel (initState emptyStore) "deck1" (.fetchError "network down")
        (.ok []) (fun _ => .rejected)).state.dialogs.alert.connectAfterClose = false ∧
    (alertDialogClose (loadPanel (initState emptyStore) "deck1"
        (.fetchError "network down") (.ok [])
        (fun _ => .rejected)).state).dialogs.connect.visible = false :=
  ⟨rfl, rfl, rfl⟩

/-- Claim C2 (amended): a panel-load failure (fetch failure of either kind,
or build failure) shows a "Failed to load panel" notification but does NOT
flag it to reopen the connect prompt on dismissal — unlike a connect
failure, `connectAfterClose` is left untouched, so dismissal leaves the
connect dialog as it was; a build failure additionally forces the panel
closed (currentPanel cleared, persisted last panel removed, surface
hidden). -/
theorem C2_panel_load_failure_no_connect_chain (s : AppState)
    (name msg bmsg : String) (line col : Nat) (errs : List String)
    (build : BuildResult) (acquire : Nat → AcquireOutcome)
    (h : s.dialogs.alert.connectAfterClose = false) :
    ((loadPanel s name (.fetchError msg) build acquire).state.dialogs.alert.connectAfterClose
        = false ∧
      (alertDialogClose (loadPanel s name (.fetchError msg) build
          acquire).state).dialogs.connect.visible = s.dialogs.connect.visible) ∧
    ((loadPanel s name (.parseError line col msg) build acquire).state.dialogs.alert.connectAfterClose
        = false ∧
      (alertDialogClose (loadPanel s name (.parseError line col msg) build
          acquire).state).dialogs.connect.visible = s.dialogs.connect.visible) ∧
    ((loadPanel s name .ok (.assetError bmsg errs) acquire).state.dialogs.alert.connectAfterClose
        = false ∧
      (alertDialogClose (loadPanel s name .ok (.assetError bmsg errs)
          acquire).state).dialogs.connect.visible = s.dialogs.connect.visible ∧
      (loadPanel s name .ok (.assetError bmsg errs) acquire).state.currentPanel = none ∧
      getItem (loadPanel s name .ok (.assetError bmsg errs) acquire).state.store "lastPanel"
        = none ∧
      (loadPanel s name .ok (.assetError bmsg errs) acquire).state.panelHidden = true) ∧
    ((loadPanel s name .ok (.plainError bmsg) acquire).state.dialogs.alert.connectAfterClose
        = false ∧
      (alertDialogClose (loadPanel s name .ok (.plainError bmsg)
          acquire).state).dialogs.connect.visible = s.dialogs.connect.visible ∧
      (loadPanel s name .ok (.plainError bmsg) acquire).state.currentPanel = none) := by
  refine ⟨⟨?_, ?_⟩, ⟨?_, ?_⟩, ⟨?_, ?_, rfl, ?_, rfl⟩, ⟨?_, ?_, rfl⟩⟩ <;>
    simp [loadPanel, buildStage, persistPanel, showAlertDialog, closePanel,
      alertDialogClose, getItem, removeItem, h]

/-- Witness for C2 (amended) at a concrete input. -/
theorem C2_witness :
    ((loadPanel (initState emptyStore) "deck1" (.fetchError "boom") (.ok [])
        (fun _ => .rejected)).state.dialogs.alert.connectAfterClose = false ∧
      (alertDialogClose (loadPanel (initState emptyStore) "deck1" (.fetchError "boom")
          (.ok []) (fun _ => .rejected)).state).dialogs.connect.visible
        = (initState emptyStore).dialogs.connect.visible) ∧
    ((loadPanel (initState emptyStore) "deck1" (.parseError 5 12 "boom") (.ok [])
        (fun _ => .rejected)).state.dialogs.alert.connectAfterClose = false ∧
      (alertDialogClose (loadPanel (initState emptyStore) "deck1"
          (.parseError 5 12 "boom") (.ok [])
          (fun _ => .rejected)).state).dialogs.connect.visible
        = (initState emptyStore).dialogs.connect.visible) ∧
    ((loadPanel (initState emptyStore) "deck1" .ok (.assetError "bad asset" ["e1"])
        (fun _ => .rejected)).state.dialogs.alert.connectAfterClose = false ∧
      (alertDialogClose (loadPanel (initState emptyStore) "deck1" .ok
          (.assetError "bad asset" ["e1"])
          (fun _ => .rejected)).state).dialogs.connect.visible
        = (initState emptyStore).dialogs.connect.visible ∧
      (loadPanel (initState emptyStore) "deck1" .ok (.assetError "bad asset" ["e1"])
        (fun _ => .rejected)).state.currentPanel = none ∧
      getItem (loadPanel (initState emptyStore) "deck1" .ok
          (.assetError "bad asset" ["e1"])
          (fun _ => .rejected)).state.store "lastPanel" = none ∧
      (loadPanel (initState emptyStore) "deck1" .ok (.assetError "bad asset" ["e1"])
        (fun _ => .rejected)).state.panelHidden = true) ∧
    ((loadPanel (initState emptyStore) "deck1" .ok (.plainError "bad")
        (fun _ => .rejected)).state.dialogs.alert.connectAfterClose = false ∧
      (alertDialogClose (loadPanel (initState emptyStore) "deck1" .ok
          (.plainError "bad")
          (fun _ => .rejected)).state).dialogs.connect.visible
        = (initState emptyStore).dialogs.connect.visible ∧
      (loadPanel (initState emptyStore) "deck1" .ok (.plainError "bad")
        (fun _ => .rejected)).state.currentPanel = none) :=
  C2_panel_load_failure_no_connect_chain (initState emptyStore) "deck1" "boom" "bad"
    5 12 ["e1"] (.ok []) (fun _ => .rejected) rfl

/-- Claim C3 fails as stated: in a state with an active panel whose request
mismatches what acquisition returns, the `reconnected` handler emits no
notification at all (its ghost log of shown notifications is unchanged),
even though the reconciler's own warning computation on those same
acquisition results is non-empty. -/
theorem C3_counterexample :
    (onReconnected panelActiveState ConnectionState.Connected mismatchAcquire).shown
      = panelActiveState.shown ∧
    deviceWarnings mismatchRequests
      (allSettled (mismatchRequests.map (fun p => mismatchAcquire p.1)))
      = .ok mismatchWarnings :=
  ⟨rfl, rfl⟩

/-- Claim C3 (amended): after a transport `reconnected` event the handler
re-issues one acquisition request per device of the active panel's resource
request (no caching) and drops the results: no capability comparison runs and
no "Device info" notification can be emitted; the reconciling comparison runs
only inside `loadPanel` after a successful build. -/
theorem C3_reconnected_reacquires_without_notify (s : AppState)
    (cs : ConnectionState) (acquire : Nat → AcquireOutcome) :
    (onReconnected s cs acquire).shown = s.shown ∧
    (onReconnected s cs acquire).acquireBatches
      = s.acquireBatches ++ [s.usedDeviceResources.map Prod.fst] ∧
    (onReconnected s cs acquire).dialogs.reconnecting.visible = false ∧
    (onReconnected s cs acquire).connectionState = cs ∧
    (onReconnected s cs acquire).currentPanel = s.currentPanel :=
  ⟨rfl, rfl, rfl, rfl, rfl⟩

/-- Claim C4: a fetch failure that is a SyntaxError with line 5 and column 12
produces the notification whose first line is exactly
"Error on line 5 at column 12:" followed by the raw error text; a non-parse
fetch failure shows only the raw message; in both cases the store (hence the
persisted last panel), `currentPanel`, the device resources and the
acquisition log are unchanged and the load aborts without fault. -/
theorem C4_fetch_failure_aborts (s : AppState) (name msg : String)
    (build : BuildResult) (acquire : Nat → AcquireOutcome) :
    (loadPanel s name (.parseError 5 12 msg) build acquire).state.dialogs.alert.title
      = "Failed to load panel" ∧
    (loadPanel s name (.parseError 5 12 msg) build acquire).state.dialogs.alert.message
      = ["Error on line 5 at column 12:", msg] ∧
    (loadPanel s name (.parseError 5 12 msg) build acquire).state.currentPanel
      = s.currentPanel ∧
    (loadPanel s name (.parseError 5 12 msg) build acquire).state.store = s.store ∧
    (loadPanel s name (.parseError 5 12 msg) build acquire).state.usedDeviceResources
      = s.usedDeviceResources ∧
    (loadPanel s name (.parseError 5 12 msg) build acquire).state.acquireBatches
      = s.acquireBatches ∧
    (loadPanel s name (.parseError 5 12 msg) build acquire).faulted = false ∧
    (loadPanel s name (.fetchError msg) build acquire).state.dialogs.alert.message
      = [msg] ∧
    (loadPanel s name (.fetchError msg) build acquire).state.currentPanel
      = s.currentPanel ∧
    (loadPanel s name (.fetchError msg) build acquire).state.store = s.store ∧
    (loadPanel s name (.fetchError msg) build acquire).state.acquireBatches
      = s.acquireBatches ∧
    (loadPanel s name (.fetchError msg) build acquire).faulted = false :=
  ⟨rfl, rfl, rfl, rfl, rfl, rfl, rfl, rfl, rfl, rfl, rfl, rfl⟩

/-- Claim C5: on fetch success `currentPanel` is set and persisted before the
build is attempted — `loadPanel` hands the build stage the state with the
write already in place, and the write is not rolled back by the fetch stage;
if the build then fails with AssetError "bad asset" and sub-errors
["missing icon.png", "missing font.ttf"], the notification carries exactly
those three lines in order and the panel ends closed (currentPanel none,
persisted last panel cleared, surface hidden). -/
theorem C5_persist_before_build (s : AppState) (name : String)
    (acquire : Nat → AcquireOutcome) :
    (persistPanel s name).currentPanel = some name ∧
    getItem (persistPanel s name).store "lastPanel" = some name ∧
    loadPanel s name .ok
        (.assetError "bad asset" ["missing icon.png", "missing font.ttf"]) acquire
      = buildStage (persistPanel s name)
          (.assetError "bad asset" ["missing icon.png", "missing font.ttf"]) acquire ∧
    (loadPanel s name .ok
        (.assetError "bad asset" ["missing icon.png", "missing font.ttf"])
        acquire).state.dialogs.alert.title = "Failed to load panel" ∧
    (loadPanel s name .ok
        (.assetError "bad asset" ["missing icon.png", "missing font.ttf"])
        acquire).state.dialogs.alert.message
      = ["bad asset", "missing icon.png", "missing font.ttf"] ∧
    (loadPanel s name .ok
        (.assetError "bad asset" ["missing icon.png", "missing font.ttf"])
        acquire).state.currentPanel = none ∧
    getItem (loadPanel s name .ok
        (.assetError "bad asset" ["missing icon.png", "missing font.ttf"])
        acquire).state.store "lastPanel" = none ∧
    (loadPanel s name .ok
        (.assetError "bad asset" ["missing icon.png", "missing font.ttf"])
        acquire).state.panelHidden = true := by
  refine ⟨rfl, ?_, rfl, rfl, rfl, rfl, ?_, rfl⟩
  · simp [persistPanel, getItem, setItem]
  · simp [loadPanel, buildStage, persistPanel, showAlertDialog, closePanel,
      getItem, removeItem]

/-- Claim C6: the per-result warning rules of the reconciliation loop — a
fulfilled but unacquired device yields exactly the "Unable to acquire device
{id}" warning; an acquired device yields the insufficient-button warning
exactly when its button count is below the requested one, followed by one
warning per requested axis missing from the device's axis set, in request
order; and in the concrete scenario (device 3 requested with 4 buttons and
axis "x", acquired with 2 buttons and no axes) exactly the two expected
warnings are produced. -/
theorem C6_warning_rules :
    (∀ (used : List (Nat × DeviceRequest)) (d : Device),
      d.isAcquired = false →
      deviceWarningsOne used (some d)
        = .ok ["Unable to acquire device " ++ toString d.id]) ∧
    (∀ (used : List (Nat × DeviceRequest)) (d : Device) (req : DeviceRequest),
      d.isAcquired = true → lookupRequest used d.id = some req → req.axes = none →
      deviceWarningsOne used (some d)
        = .ok (if req.buttons > d.numButtons then
            ["Device " ++ toString d.id ++ " has " ++ toString d.numButtons ++
              " buttons but this panel uses " ++ toString req.buttons]
          else [])) ∧
    (∀ (used : List (Nat × DeviceRequest)) (d : Device) (req : DeviceRequest)
        (axes : List String),
      d.isAcquired = true → lookupRequest used d.id = some req → req.axes = some axes →
      deviceWarningsOne used (some d)
        = .ok ((if req.buttons > d.numButtons then
              ["Device " ++ toString d.id ++ " has " ++ toString d.numButtons ++
                " buttons but this panel uses " ++ toString req.buttons]
            else []) ++
            (axes.filter (fun a => !(d.axes.contains a))).map
              (fun a => "Requested axis " ++ a ++ " not enabled on device " ++
                toString d.id))) ∧
    deviceWarnings mismatchRequests (allSettled [.fulfilled ⟨3, true, 2, []⟩])
      = .ok mismatchWarnings := by
  refine ⟨?_, ?_, ?_, rfl⟩
  · intro used d hacq
    simp [deviceWarningsOne, hacq]
  · intro used d req hacq hreq hax
    simp [deviceWarningsOne, hacq, hreq, hax]
  · intro used d req axes hacq hreq hax
    simp [deviceWarningsOne, hacq, hreq, hax]

/-- Witness for C6 at concrete inputs, one per rule. -/
theorem C6_witness :
    deviceWarningsOne [] (some ⟨7, false, 0, []⟩)
      = .ok ["Unable to acquire device 7"] ∧
    deviceWarningsOne [(7, ⟨2, none⟩)] (some ⟨7, true, 1, []⟩)
      = .ok (if (2 : Nat) > 1 then
          ["Device 7 has 1 buttons but this panel uses 2"] else []) ∧
    deviceWarningsOne mismatchRequests (some ⟨3, true, 2, []⟩)
      = .ok ((if (4 : Nat) > 2 then
            ["Device 3 has 2 buttons but this panel uses 4"] else []) ++
          (["x"].filter (fun a => !(([] : List String).contains a))).map
            (fun a => "Requested axis " ++ a ++ " not enabled on device 3")) :=
  ⟨C6_warning_rules.1 [] ⟨7, false, 0, []⟩ rfl,
   C6_warning_rules.2.1 [(7, ⟨2, none⟩)] ⟨7, true, 1, []⟩ ⟨2, none⟩ rfl rfl rfl,
   C6_warning_rules.2.2.1 mismatchRequests ⟨3, true, 2, []⟩ ⟨4, some ["x"]⟩ ["x"]
     rfl rfl rfl⟩

/-- Claim C7: one acquisition request is issued per device id of the active
panel's resource request (in order), the all-settled join yields one settled
entry per request whatever the individual outcomes (no short-circuit, so
every result lands in the same batch), and — when the warning loop completes
with warnings `ws` — a single notification titled "Device info" carrying all
of `ws` is appended exactly when `ws` is non-empty. -/
theorem C7_batch_settles_and_notifies (s : AppState)
    (acquire : Nat → AcquireOutcome) (ws : List String)
    (h : deviceWarnings s.usedDeviceResources
        (allSettled ((s.usedDeviceResources.map Prod.fst).map acquire)) = .ok ws) :
    (acquireDevices s acquire).2
      = (s.usedDeviceResources.map Prod.fst).map (fun i => settle (acquire i)) ∧
    (acquireDevices s acquire).2.length = s.usedDeviceResources.length ∧
    (reconcileStage s acquire).faulted = false ∧
    (reconcileStage s acquire).state.shown
      = s.shown ++ (if ws.length > 0 then [("Device info", ws)] else []) ∧
    (reconcileStage s acquire).state.acquireBatches
      = s.acquireBatches ++ [s.usedDeviceResources.map Prod.fst] := by
  simp only [allSettled] at h
  refine ⟨?_, ?_, ?_, ?_, ?_⟩
  · simp [acquireDevices, allSettled]
  · simp [acquireDevices, allSettled]
  · simp only [reconcileStage, acquireDevices, allSettled]
    rw [h]
    by_cases hl : ws.length > 0 <;> simp [hl, showAlertDialog]
  · simp only [reconcileStage, acquireDevices, allSettled]
    rw [h]
    by_cases hl : ws.length > 0 <;> simp [hl, showAlertDialog]
  · simp only [reconcileStage, acquireDevices, allSettled]
    rw [h]
    by_cases hl : ws.length > 0 <;> simp [hl, showAlertDialog]

/-- Witness for C7 at the concrete mismatch scenario: both warnings appear in
one "Device info" notification. -/
theorem C7_witness :
    (acquireDevices panelActiveState mismatchAcquire).2
      = (panelActiveState.usedDeviceResources.map Prod.fst).map
          (fun i => settle (mismatchAcquire i)) ∧
    (acquireDevices panelActiveState mismatchAcquire).2.length
      = panelActiveState.usedDeviceResources.length ∧
    (reconcileStage panelActiveState mismatchAcquire).faulted = false ∧
    (reconcileStage panelActiveState mismatchAcquire).state.shown
      = panelActiveState.shown ++
          (if mismatchWarnings.length > 0 then [("Device info", mismatchWarnings)]
            else []) ∧
    (reconcileStage panelActiveState mismatchAcquire).state.acquireBatches
      = panelActiveState.acquireBatches ++
          [panelActiveState.usedDeviceResources.map Prod.fst] :=
  C7_batch_settles_and_notifies panelActiveState mismatchAcquire mismatchWarnings rfl

/-- Claim C8: the address and port submitted through the connect flow are
persisted by `submit` and read back verbatim by the next startup's `created`
hook, which auto-connects with exactly those values (for any prior store
contents; the address must be non-empty since the startup guard treats an
empty stored address as falsy). -/
theorem C8_round_trip (st : Store) (address port : String) (h : address ≠ "") :
    createdStartup (submitPersist st address port) = some (address, some port) := by
  have h1 : getItem (submitPersist st address port) "address" = some address := by
    simp [submitPersist, getItem, setItem]
  have h2 : getItem (submitPersist st address port) "port" = some port := by
    simp [submitPersist, getItem, setItem]
  simp [createdStartup, h1, h2, h]

/-- Witness for C8 at a concrete address and port. -/
theorem C8_witness :
    createdStartup (submitPersist emptyStore "192.168.0.7" "32155")
      = some ("192.168.0.7", some "32155") :=
  C8_round_trip emptyStore "192.168.0.7" "32155" (by decide)

/-- Claim C9 fails as stated: a macro-type press event (not a view-type
event) is dropped by `onButtonChange` — it is not routed to `sendInput`. -/
theorem C9_counterexample :
    onButtonChange ⟨InputType.macroInput, true, ""⟩ = ButtonEffect.ignore ∧
    InputType.macroInput ≠ InputType.view :=
  ⟨rfl, by decide⟩

/-- Claim C9 (amended): press events (isPressed true) of every type are
dropped; release events of macro and command type are routed to `sendInput`;
view-type release events call `setView` locally; and view-type events are
never routed to `sendInput`. -/
theorem C9_button_routing (a : ButtonAction) :
    (a.isPressed = true → onButtonChange a = .ignore) ∧
    (a.isPressed = false → a.type = .view → onButtonChange a = .setView a.view) ∧
    (a.isPressed = false → a.type ≠ .view → onButtonChange a = .send a) ∧
    (a.type = .view → ∀ b, onButtonChange a ≠ .send b) := by
  obtain ⟨t, p, v⟩ := a
  cases t <;> cases p <;> simp [onButtonChange]

/-- Witness for C9 (amended) at concrete button events. -/
theorem C9_witness :
    onButtonChange ⟨InputType.command, false, ""⟩
      = ButtonEffect.send ⟨InputType.command, false, ""⟩ ∧
    onButtonChange ⟨InputType.view, false, "main"⟩ = ButtonEffect.setView "main" ∧
    onButtonChange ⟨InputType.view, true, "main"⟩ = ButtonEffect.ignore :=
  ⟨(C9_button_routing ⟨InputType.command, false, ""⟩).2.2.1 rfl (by decide),
   (C9_button_routing ⟨InputType.view, false, "main"⟩).2.1 rfl rfl,
   (C9_button_routing ⟨InputType.view, true, "main"⟩).1 rfl⟩

/-- Claim C10: the warning loop dereferences the `value` of each settled
result, so it is fault-free when every acquisition promise fulfilled (with a
device whose id is either reported unacquired or present in the request map),
and it faults — instead of producing an "Unable to acquire" warning —
whenever some settled result has no value, i.e. whenever some acquireDevice
promise rejected; in particular it faults on the concrete one-device input
whose single promise rejected. -/
theorem C10_loop_faults_on_rejection :
    (∀ (used : List (Nat × DeviceRequest)) (results : List SettledResult),
      (∃ r ∈ results, r.value = none) →
      deviceWarnings used results = .error ()) ∧
    (∀ (used : List (Nat × DeviceRequest)) (results : List SettledResult),
      (∀ r ∈ results, ∃ d, r.value = some d ∧
        (d.isAcquired = false ∨ ∃ req, lookupRequest used d.id = some req)) →
      ∃ ws, deviceWarnings used results = .ok ws) ∧
    deviceWarnings [(3, ⟨1, none⟩)] (allSettled [.rejected]) = .error () := by
  refine ⟨?_, ?_, rfl⟩
  · intro used results
    induction results with
    | nil => rintro ⟨r, hr, -⟩; cases hr
    | cons r rest ih =>
      rintro ⟨r', hr', hv⟩
      rcases List.mem_cons.mp hr' with h | h
      · subst h
        simp [deviceWarnings, deviceWarningsOne, hv]
      · cases hone : deviceWarningsOne used r.value with
        | error e => cases e; simp [deviceWarnings, hone]
        | ok w => simp [deviceWarnings, hone, ih ⟨r', h, hv⟩]
  · intro used results h
    induction results with
    | nil => exact ⟨[], rfl⟩
    | cons r rest ih =>
      obtain ⟨d, hv, hd⟩ := h r (List.mem_cons_self r rest)
      have hone : ∃ w, deviceWarningsOne used r.value = .ok w := by
        rw [hv]
        cases hone2 : deviceWarningsOne used (some d) with
        | ok w => exact ⟨w, rfl⟩
        | error e =>
          exfalso
          rcases hd with hacq | ⟨req, hreq⟩
          · simp [deviceWarningsOne, hacq] at hone2
          · by_cases hb : d.isAcquired
            · simp [deviceWarningsOne, hb, hreq] at hone2
            · simp [deviceWarningsOne, hb] at hone2
      obtain ⟨w, hw⟩ := hone
      obtain ⟨ws, hws⟩ := ih (fun r' hr' => h r' (List.mem_cons_of_mem r hr'))
      exact ⟨w ++ ws, by simp [deviceWarnings, hw, hws]⟩

/-- Witness for C10: the fault and fault-free parts applied at concrete
inputs. -/
theorem C10_witness :
    deviceWarnings [] [⟨none⟩] = .error () ∧
    (∃ ws, deviceWarnings mismatchRequests [⟨some ⟨3, true, 2, []⟩⟩] = .ok ws) :=
  ⟨C10_loop_faults_on_rejection.1 [] [⟨none⟩] ⟨⟨none⟩, by simp, rfl⟩,
   C10_loop_faults_on_rejection.2.1 mismatchRequests [⟨some ⟨3, true, 2, []⟩⟩]
     (by rintro r hr
         simp only [List.mem_singleton] at hr
         subst hr
         exact ⟨⟨3, true, 2, []⟩, rfl, Or.inr ⟨⟨4, some ["x"]⟩, rfl⟩⟩)⟩

end RelayClient
